import Mathlib

/-!  A verification model of the Berez chatbot core: the hybrid property
search with its fingerprinted result cache (services/redis.ts), the rule
based intent classifier and structured-filter extraction, the chat turn
handler with its response cache, token-budget truncation and fallback
response (services/chatbot.ts and its sibling revision), and the choice
response generator (response-generator module).  All definitions are
shallow embeddings of the TypeScript sources; JavaScript numbers are
modelled exactly (integers as Int, fractional values as Rat, the
similarity computation over the reals), and JavaScript strings as Lean
strings over their character lists. -/

namespace Berez

/- ## Character and string primitives
Models of the JavaScript string operations used by the sources.
The whitespace class is the ASCII part of the regex class used by the
code; every string the system actually manipulates is ASCII. -/

def isWsChar (c : Char) : Bool :=
  c == ' ' || c == '\t' || c == '\n' || c == '\r'

/-- Model of the regex digit class: ASCII digits. -/
def isDigitChar (c : Char) : Bool := c.isDigit

/-- Model of the regex word class: ASCII letters, digits and underscore. -/
def isWordChar (c : Char) : Bool := c.isAlphanum || c == '_'

/-- True when the first list is an initial segment of the second. -/
def charsLead : List Char → List Char → Bool
  | [], _ => true
  | _ :: _, [] => false
  | a :: as, b :: bs => a == b && charsLead as bs

/-- True when the first list occurs contiguously inside the second;
model of JavaScript String.includes on character lists. -/
def charsHas : List Char → List Char → Bool
  | needle, [] => charsLead needle []
  | needle, c :: rest => charsLead needle (c :: rest) || charsHas needle rest

/-- Model of JavaScript hay.includes(needle). -/
def strIncludes (hay needle : String) : Bool := charsHas needle.data hay.data

/-- Model of JavaScript String.trim (leading and trailing whitespace removed). -/
def strTrim (s : String) : String :=
  String.mk (((s.data.dropWhile isWsChar).reverse.dropWhile isWsChar).reverse)

/-- Model of the global regex replacement of every maximal whitespace run
by a single space; the Bool argument records whether the previous
character was part of a whitespace run. -/
def collapseWsAux : Bool → List Char → List Char
  | _, [] => []
  | prevWs, c :: rest =>
    if isWsChar c then
      if prevWs then collapseWsAux true rest
      else ' ' :: collapseWsAux true rest
    else c :: collapseWsAux false rest

/-- Model of Char lowercasing on ASCII (the toLowerCase the sources apply). -/
def charLower (c : Char) : Char :=
  if c.isUpper then Char.ofNat (c.toNat + 32) else c

/-- Model of JavaScript String.toLowerCase. -/
def strToLower (s : String) : String := String.mk (s.data.map charLower)

/-- Model of parseInt on a nonempty list of ASCII digits. -/
def digitsToNatAux : Nat → List Char → Nat
  | acc, [] => acc
  | acc, c :: rest => digitsToNatAux (acc * 10 + (c.toNat - 48)) rest

def digitsToNat (ds : List Char) : Nat := digitsToNatAux 0 ds

/- ## Data model (src/types.ts)
JavaScript numbers that the catalog stores as integers (beds, rent,
square feet, fees) are modelled as Int; bath counts, which the filter
extraction parses with parseFloat, as Rat. -/

structure Address where
  raw : String
  street_number : String
  street_name : String
  street_type : String
  unit : String
  city : String
  state : String
  zip_code : String
deriving DecidableEq

structure ListingUrls where
  listing_id : String
  view_details_url : String
  apply_now_url : String
  schedule_showing_url : String
  property_website_url : String
deriving DecidableEq

structure UnitDetails where
  beds : Int
  baths : ℚ
  square_feet : Int
  available : String
  floorplan_name : Option String
deriving DecidableEq

structure RentalTerms where
  rent : Int
  application_fee : Int
  security_deposit : Int
  flex_rent_program : Bool
deriving DecidableEq

structure PetsAllowed where
  allowed : Bool
  allowed_types : List String
  weight_limit : Option Int
  size_restrictions : List String
deriving DecidableEq

structure PetPolicy where
  pets_allowed : PetsAllowed
  pet_rent : Option Int
  pet_deposit : Option Int
deriving DecidableEq

structure SpecialOffer where
  flag : Bool
  text : Option String
deriving DecidableEq

structure Property where
  source : String
  property_name : String
  address : Address
  listing_urls : ListingUrls
  unit_details : UnitDetails
  rental_terms : RentalTerms
  pet_policy : PetPolicy
  appliances : List String
  photos : List String
  special_offer : SpecialOffer
  utilities_included : List String
deriving DecidableEq

/-- A min/max range as used by the rent and square-feet filters.  A
field that the TypeScript object does not carry is None. -/
structure NumRange where
  min : Option Int
  max : Option Int
deriving DecidableEq

/-- The optional structured filters of a SearchQuery.  A filter key that
is absent from the TypeScript object is None. -/
structure Filters where
  beds : Option Int
  baths : Option ℚ
  rent : Option NumRange
  city : Option String
  pets_allowed : Option Bool
  square_feet : Option NumRange
deriving DecidableEq

/-- The filter object with no keys set (the TypeScript literal of an
empty filter object). -/
def emptyFilters : Filters :=
  { beds := none, baths := none, rent := none, city := none
    pets_allowed := none, square_feet := none }

/-- True when the filters object has at least one key set; model of
Object.keys(query.filters).length > 0. -/
def filtersNonEmpty : Option Filters → Bool
  | none => false
  | some f =>
    f.beds.isSome || f.baths.isSome || f.rent.isSome || f.city.isSome ||
      f.pets_allowed.isSome || f.square_feet.isSome

inductive QueryType
  | exact
  | semantic
  | hybrid
  | choice
  | action
deriving DecidableEq

structure SearchQuery where
  type : QueryType
  query : String
  filters : Option Filters
deriving DecidableEq

structure SearchResult where
  properties : List Property
  query : SearchQuery
  latency : Nat
  cacheHit : Bool
deriving DecidableEq

/- ## Property filtering (services/redis.ts, matchesFilters)
Each check models one closure of the filterChecks array.  A JavaScript
falsy test on a number is a test against 0 (NaN, which is also falsy,
is not representable in the exact number model). -/

def checkBeds (p : Property) (f : Filters) : Bool :=
  match f.beds with
  | none => true
  | some b => decide (b = 0) || decide (p.unit_details.beds = b)

def checkBaths (p : Property) (f : Filters) : Bool :=
  match f.baths with
  | none => true
  | some b => decide (b = 0) || decide (p.unit_details.baths = b)

def checkRent (p : Property) (f : Filters) : Bool :=
  match f.rent with
  | none => true
  | some r =>
    (match r.min with
     | none => true
     | some m => decide (m = 0) || decide (m ≤ p.rental_terms.rent)) &&
    (match r.max with
     | none => true
     | some m => decide (m = 0) || decide (p.rental_terms.rent ≤ m))

def checkCity (p : Property) (f : Filters) : Bool :=
  match f.city with
  | none => true
  | some c => c.data.isEmpty || strIncludes (strToLower p.address.city) (strToLower c)

def checkPets (p : Property) (f : Filters) : Bool :=
  match f.pets_allowed with
  | none => true
  | some b => decide (p.pet_policy.pets_allowed.allowed = b)

def checkSquareFeet (p : Property) (f : Filters) : Bool :=
  match f.square_feet with
  | none => true
  | some r =>
    (match r.min with
     | none => true
     | some m => decide (m = 0) || decide (m ≤ p.unit_details.square_feet)) &&
    (match r.max with
     | none => true
     | some m => decide (m = 0) || decide (p.unit_details.square_feet ≤ m))

/-- Model of RedisService.matchesFilters: the conjunction of the six
filter checks, with an undefined filters argument passing outright. -/
def matchesFilters (p : Property) (filters : Option Filters) : Bool :=
  match filters with
  | none => true
  | some f =>
    checkBeds p f && checkBaths p f && checkRent p f && checkCity p f &&
      checkPets p f && checkSquareFeet p f

/- ## Intent classification (services/chatbot.ts, determineQueryType)
The repository carries two revisions of the classifier: the three-intent
version in src/services/chatbot.ts, and a five-intent version (with
action and choice checks evaluated first) in the sibling revision of the
chatbot service.  Both are embedded. -/

def generalQueries : List String :=
  ["what properties", "show me properties", "all properties",
   "list properties", "available properties"]

def exactFilterKeywords : List String :=
  ["bed", "bath", "rent", "price", "pet", "dog", "cat"]

def semanticTerms : List String :=
  ["apartment", "house", "property", "available", "looking for"]

def actionKeywords : List String :=
  ["tour", "schedule", "visit", "apply", "application", "apply now",
   "details", "more info", "show me"]

def choiceKeywords : List String :=
  ["option 1", "option 2", "option 3", "option 4",
   "1", "2", "3", "4", "first", "second", "third", "fourth"]

/-- Model of determineQueryType in src/services/chatbot.ts: the general
query check, then filter keywords and descriptive terms. -/
def determineQueryType (userMessage : String) : QueryType :=
  let lowerMessage := strToLower userMessage
  if generalQueries.any (fun t => strIncludes lowerMessage t) then QueryType.exact
  else
    let hasExactFilters := exactFilterKeywords.any (fun t => strIncludes lowerMessage t)
    let hasSemanticTerms := semanticTerms.any (fun t => strIncludes lowerMessage t)
    if hasExactFilters && hasSemanticTerms then QueryType.hybrid
    else if hasExactFilters then QueryType.exact
    else QueryType.semantic

/-- Model of determineQueryType in the five-intent revision of the
chatbot service: action keywords first, then choice references, then the
same tail as the three-intent version. -/
def determineQueryTypeP3 (userMessage : String) : QueryType :=
  let lowerMessage := strToLower userMessage
  if actionKeywords.any (fun t => strIncludes lowerMessage t) then QueryType.action
  else if choiceKeywords.any (fun t => strIncludes lowerMessage t) then QueryType.choice
  else if generalQueries.any (fun t => strIncludes lowerMessage t) then QueryType.exact
  else
    let hasExactFilters := exactFilterKeywords.any (fun t => strIncludes lowerMessage t)
    let hasSemanticTerms := semanticTerms.any (fun t => strIncludes lowerMessage t)
    if hasExactFilters && hasSemanticTerms then QueryType.hybrid
    else if hasExactFilters then QueryType.exact
    else QueryType.semantic

/- ## Structured filter extraction (services/chatbot.ts, extractFilters)
The regexes are embedded as explicit leftmost-match scanners.  Each
scanner tries the pattern at every position from the left; a pattern of
the shape digits, optional fraction, whitespace, literal has no
observable backtracking because its character classes are disjoint, so
maximal munch at each position is exact. -/

/-- Attempt the bed/bath numeric pattern at the head of the list: a
nonempty digit run, optionally a dot followed by a nonempty digit run
(only when fractions are allowed), then whitespace, then the literal.
Returns the integer and fractional digit groups. -/
def numUnitAt (allowFrac : Bool) (lit : List Char) (l : List Char) :
    Option (List Char × List Char) :=
  let ds := l.takeWhile isDigitChar
  if ds.isEmpty then none
  else
    let rest := l.drop ds.length
    let fs :=
      if allowFrac then
        match rest with
        | '.' :: rest2 =>
          let fs := rest2.takeWhile isDigitChar
          if fs.isEmpty then [] else fs
        | _ => []
      else []
    let rest2 := (l.drop (ds.length + (if fs.isEmpty then 0 else fs.length + 1))).dropWhile isWsChar
    if charsLead lit rest2 then some (ds, fs) else none

/-- Leftmost match of the bed/bath numeric pattern. -/
def scanNumUnit (allowFrac : Bool) (lit : List Char) : List Char → Option (List Char × List Char)
  | [] => none
  | c :: rest =>
    match numUnitAt allowFrac lit (c :: rest) with
    | some r => some r
    | none => scanNumUnit allowFrac lit rest

/-- Attempt the currency pattern at the head of the list: a dollar sign,
a nonempty digit run, optionally whitespace, a dash, whitespace, an
optional dollar sign and a second nonempty digit run.  Returns the two
digit groups. -/
def rentAt (l : List Char) : Option (List Char × Option (List Char)) :=
  match l with
  | '$' :: rest =>
    let ds := rest.takeWhile isDigitChar
    if ds.isEmpty then none
    else
      let afterFirst := rest.drop ds.length
      let t1 := afterFirst.dropWhile isWsChar
      match t1 with
      | '-' :: t2 =>
        let t3 := t2.dropWhile isWsChar
        let t4 := match t3 with
          | '$' :: t5 => t5
          | _ => t3
        let ds2 := t4.takeWhile isDigitChar
        if ds2.isEmpty then some (ds, none) else some (ds, some ds2)
      | _ => some (ds, none)
  | _ => none

/-- Leftmost match of the currency pattern. -/
def scanRent : List Char → Option (List Char × Option (List Char))
  | [] => none
  | c :: rest =>
    match rentAt (c :: rest) with
    | some r => some r
    | none => scanRent rest

/-- Model of parseFloat on an integer digit group and a fractional digit
group, yielding the exact rational. -/
def parseFloatGroups (ds fs : List Char) : ℚ :=
  let den := 10 ^ fs.length
  mkRat (Int.ofNat (digitsToNat ds * den + digitsToNat fs)) den

def cityAllowList : List String :=
  ["portland", "fairview", "beaverton", "gresham"]

/-- Model of ChatbotService.extractFilters (identical in both revisions
of the chatbot service). -/
def extractFilters (query : String) : Filters :=
  let lowerQuery := strToLower query
  let beds :=
    match scanNumUnit false ("bed").data lowerQuery.data with
    | some (ds, _) => some ((digitsToNat ds : Int))
    | none => none
  let baths :=
    match scanNumUnit true ("bath").data lowerQuery.data with
    | some (ds, fs) => some (parseFloatGroups ds fs)
    | none => none
  let rent :=
    match scanRent lowerQuery.data with
    | none => none
    | some (d1, d2) =>
      if strIncludes lowerQuery ("under") || strIncludes lowerQuery ("less than") ||
          strIncludes lowerQuery ("below") then
        some { min := none, max := some (digitsToNat d1 : Int) }
      else if strIncludes lowerQuery ("over") || strIncludes lowerQuery ("more than") ||
          strIncludes lowerQuery ("above") then
        some { min := some (digitsToNat d1 : Int), max := none }
      else
        match d2 with
        | some d2v =>
          some { min := some (digitsToNat d1 : Int), max := some (digitsToNat d2v : Int) }
        | none =>
          some { min := some (digitsToNat d1 : Int), max := some (digitsToNat d1 : Int) }
  let city := cityAllowList.find? (fun c => strIncludes lowerQuery c)
  let pets :=
    if strIncludes lowerQuery ("pet") || strIncludes lowerQuery ("dog") ||
        strIncludes lowerQuery ("cat") then some true
    else none
  { beds := beds, baths := baths, rent := rent, city := city
    pets_allowed := pets, square_feet := none }

/- ## Cosine similarity (services/redis.ts, cosineSimilarity)
The loop accumulators are embedded as list folds over the reals (the
idealization of the IEEE doubles the code uses). -/

/-- The dot-product accumulator of the similarity loop. -/
noncomputable def dotProd : List ℝ → List ℝ → ℝ
  | a :: as, b :: bs => a * b + dotProd as bs
  | _, _ => 0

/-- The squared-norm accumulator of the similarity loop. -/
noncomputable def sumSq : List ℝ → ℝ
  | [] => 0
  | x :: xs => x * x + sumSq xs

/-- Model of RedisService.cosineSimilarity: 0 on mismatched dimensions,
0 on a zero denominator, otherwise the normalized dot product. -/
noncomputable def cosineSimilarity (a b : List ℝ) : ℝ :=
  if a.length = b.length then
    let denominator := Real.sqrt (sumSq a) * Real.sqrt (sumSq b)
    if denominator = 0 then 0 else dotProd a b / denominator
  else 0

/- ## Hybrid search merge (services/redis.ts, hybridSearch)
The function is embedded over the outcomes of its two collaborator
calls: the exact-search result list and the semantic-search result
list. -/

def listingIdsOf (ps : List Property) : List String :=
  ps.map (fun p => p.listing_urls.listing_id)

/-- Model of RedisService.hybridSearch: return the exact results when
there are at least three of them; otherwise append the semantic results
whose listing id is not already present, limited to 5 total. -/
def hybridSearch (exactResults semanticResults : List Property) : List Property :=
  if 3 ≤ exactResults.length then exactResults
  else
    let existingIds := listingIdsOf exactResults
    let additionalResults :=
      semanticResults.filter (fun p => !(decide (p.listing_urls.listing_id ∈ existingIds)))
    exactResults ++ additionalResults.take (5 - exactResults.length)

/- ## The search-result cache (services/redis.ts, getCacheKey and
searchProperties)
The sha256 fingerprint of the normalized query and its filters is
modelled collision-freely by the normalized pair itself.  Redis string
storage with EX 300 is modelled by a timestamped entry list: an entry
written at time t is visible while now < t + 300.  The underlying
search paths (exactSearch and hybridSearch over the store) are external
collaborators here and are passed in as oracles returning either a
candidate list or a thrown error; the state counts how often they are
invoked.  The catch-all of searchProperties maps any failure, including
an unavailable store connection, to an empty non-cached result. -/

structure CacheKey where
  query : String
  filters : Option Filters
deriving DecidableEq

/-- Model of RedisService.getCacheKey: the trimmed lowercased query text
paired with the filters. -/
def getCacheKey (query : SearchQuery) : CacheKey :=
  { query := strToLower (strTrim query.query), filters := query.filters }

structure SearchState where
  entries : List (CacheKey × List Property × Nat)
  now : Nat
  searchCalls : Nat
deriving DecidableEq

/-- Lookup in the modelled Redis cache: the most recent live entry under
the key, if any. -/
def cacheGet (k : CacheKey) (st : SearchState) : Option (List Property) :=
  match st.entries.find? (fun e => decide (e.1 = k) && decide (st.now < e.2.2 + 300)) with
  | some e => some e.2.1
  | none => none

/-- Model of the exact-vs-hybrid dispatch inside searchProperties. -/
def searchDispatch (doExact doHybrid : SearchQuery → Except String (List Property))
    (q : SearchQuery) : Except String (List Property) :=
  if filtersNonEmpty q.filters then doExact q else doHybrid q

/-- Model of RedisService.searchProperties.  The conn flag models
whether the store connection can be established at all; when it cannot,
ensureConnection throws and the surrounding catch returns the empty
result.  On a cache hit the cached payload is returned with the
cache-hit flag; on a miss the dispatched search path runs once and a
successful result is written back with the 300 second expiry. -/
def searchProperties (conn : Bool)
    (doExact doHybrid : SearchQuery → Except String (List Property))
    (q : SearchQuery) (st : SearchState) : SearchResult × SearchState :=
  if conn then
    let k := getCacheKey q
    match cacheGet k st with
    | some props =>
      ({ properties := props, query := q, latency := 0, cacheHit := true }, st)
    | none =>
      let st1 : SearchState := { st with searchCalls := st.searchCalls + 1 }
      match searchDispatch doExact doHybrid q with
      | Except.ok props =>
        ({ properties := props, query := q, latency := 0, cacheHit := false },
         { st1 with entries := (k, props, st.now) :: st1.entries })
      | Except.error _ =>
        ({ properties := [], query := q, latency := 0, cacheHit := false }, st1)
  else ({ properties := [], query := q, latency := 0, cacheHit := false }, st)

/- ## The chat turn (services/chatbot.ts, handleMessage)
The turn handler is embedded over the outcomes of its collaborator
calls: the candidate list returned by the search and the generation
collaborator call outcomes.  The uuid of a stored message is an external
value and is modelled by the empty string; the two Date.now() readings
inside one turn are modelled by one clock reading per turn. -/

/-- Model of ChatbotService.normalizeCacheKey: lowercase, trim, strip
punctuation, collapse whitespace, cap at 100 characters. -/
def normalizeCacheKey (userMessage : String) : String :=
  String.mk ((collapseWsAux false ((strTrim (strToLower userMessage)).data.filter
    (fun c => isWordChar c || isWsChar c))).take 100)

/-- The truncated property shape built by truncatePropertyData in
src/services/chatbot.ts (the fields it keeps, flattened). -/
structure TruncatedProperty where
  property_name : String
  address_raw : String
  address_city : String
  beds : Int
  baths : ℚ
  available : String
  square_feet : Int
  rent : Int
  security_deposit : Int
  pets_allowed : Bool
deriving DecidableEq

/-- The field selection of truncatePropertyData applied to one record. -/
def truncOne (p : Property) : TruncatedProperty :=
  { property_name := p.property_name
    address_raw := p.address.raw
    address_city := p.address.city
    beds := p.unit_details.beds
    baths := p.unit_details.baths
    available := p.unit_details.available
    square_feet := p.unit_details.square_feet
    rent := p.rental_terms.rent
    security_deposit := p.rental_terms.security_deposit
    pets_allowed := p.pet_policy.pets_allowed.allowed }

/- ### JSON.stringify, for the token estimate
The serialization is modelled for the value shapes the truncated records
can carry: strings (with quote, backslash and newline escapes; the
catalog strings contain no other characters needing escapes), exact
integers, finite-decimal rationals and booleans.  Literal braces inside
Lean strings are written with their character codes. -/

def escChar (c : Char) : List Char :=
  if c == '"' then ['\\', '"']
  else if c == '\\' then ['\\', '\\']
  else if c == '\n' then ['\\', 'n']
  else [c]

def jsonStr (s : String) : String :=
  String.mk ('"' :: (s.data.flatMap escChar ++ ['"']))

def intToJs (i : Int) : String := toString i

/-- Decimal digits of num/den after the point, num < den; fuel bounds
the expansion (sufficient for every decimal the sources can parse). -/
def fracDigits : Nat → Nat → Nat → List Char
  | _, _, 0 => []
  | num, den, fuel + 1 =>
    if num = 0 then []
    else
      let num10 := num * 10
      Char.ofNat (48 + num10 / den) :: fracDigits (num10 % den) den fuel

/-- JavaScript number-to-string on an exact rational: integers print
without a point, other values with their decimal expansion. -/
def ratToJs (q : ℚ) : String :=
  if q.den = 1 then toString q.num
  else
    let mag := String.mk (Nat.toDigits 10 (q.num.natAbs / q.den) ++
      ('.' :: fracDigits (q.num.natAbs % q.den) q.den 30))
    if q.num < 0 then String.mk ('-' :: mag.data) else mag

def boolToJs (b : Bool) : String := if b then ("true") else ("false")

/-- JSON.stringify of one truncated property, with the key order of the
object literal in truncatePropertyData. -/
def jsonOfTrunc (t : TruncatedProperty) : String :=
  ("\x7b\"property_name\":") ++ jsonStr t.property_name ++
  (",\"address\":\x7b\"raw\":") ++ jsonStr t.address_raw ++
  (",\"city\":") ++ jsonStr t.address_city ++
  ("\x7d,\"unit_details\":\x7b\"beds\":") ++ intToJs t.beds ++
  (",\"baths\":") ++ ratToJs t.baths ++
  (",\"available\":") ++ jsonStr t.available ++
  (",\"square_feet\":") ++ intToJs t.square_feet ++
  ("\x7d,\"rental_terms\":\x7b\"rent\":") ++ intToJs t.rent ++
  (",\"security_deposit\":") ++ intToJs t.security_deposit ++
  ("\x7d,\"pet_policy\":\x7b\"pets_allowed\":\x7b\"allowed\":") ++ boolToJs t.pets_allowed ++
  ("\x7d\x7d\x7d")

def joinComma : List (List Char) → List Char
  | [] => []
  | [x] => x
  | x :: y :: rest => x ++ (',' :: joinComma (y :: rest))

/-- JSON.stringify of the truncated property array. -/
def jsonList (ts : List TruncatedProperty) : String :=
  String.mk ('[' :: (joinComma (ts.map (fun t => (jsonOfTrunc t).data)) ++ [']']))

/-- Model of ChatbotService.estimateTokens: the ceiling of length/3.5,
computed exactly as the ceiling of 2*length/7. -/
def estimateTokens (text : String) : Nat := (2 * text.length + 6) / 7

/-- Model of ChatbotService.truncatePropertyData: map to the truncated
shape, and if the serialized token estimate exceeds the budget keep only
the proportional share of the records, rounded down. -/
def truncatePropertyData (properties : List Property) (maxTokens : Nat) :
    List TruncatedProperty :=
  let truncatedProperties := properties.map truncOne
  let estimatedTokens := estimateTokens (jsonList truncatedProperties)
  if maxTokens < estimatedTokens then
    truncatedProperties.take ((maxTokens * properties.length) / estimatedTokens)
  else truncatedProperties

/-- The fixed no-properties message (used both when the search returns
nothing and as the empty-list branch of the fallback builder). -/
def noPropertiesMsg : String :=
  "I don't have any properties available at the moment. Please try again later or contact us for assistance."

/-- Right-nested concatenation of the pieces of a template literal. -/
def strConcat : List String → String
  | [] => ""
  | s :: rest => s ++ strConcat rest

/-- Model of ChatbotService.generateFallbackResponse: the deterministic
template over the first truncated candidate. -/
def generateFallbackResponse (properties : List TruncatedProperty) : String :=
  match properties with
  | [] => noPropertiesMsg
  | property :: rest =>
    strConcat ["I found ", toString (rest.length + 1), " properties available:\n\n**",
      property.property_name, "**\n- **Address**: ", property.address_raw,
      "\n- **Unit Details**: ", intToJs property.beds, " bed, ", ratToJs property.baths,
      " bath, $", intToJs property.rent, "/month\n- **Available**: ", property.available,
      "\n- **Pet Policy**: ", if property.pets_allowed then ("Pet Friendly") else ("No Pets"),
      "\n\nThis property is located in ", property.address_city,
      ". Please contact us for more details or to schedule a viewing."]

inductive Role
  | user
  | assistant
deriving DecidableEq

structure ChatMessage where
  id : String
  role : Role
  content : String
  timestamp : Nat
deriving DecidableEq

/-- The shared mutable state a sequence of chat turns runs against: the
response cache entries (key, response, stored-at) and the message list
of the session. -/
structure ChatState where
  responseCache : List (String × String × Nat)
  session : List ChatMessage
deriving DecidableEq

def chatInit : ChatState := { responseCache := [], session := [] }

/-- The inputs of one chat turn: the user message, the clock reading, and the
outcomes of the two collaborator calls (search candidates, generation). -/
structure Turn where
  message : String
  t : Nat
  searchProps : List Property
  gen : Except String String

/-- Response-cache lookup: an entry hits while the explicit freshness
check of handleMessage (age under two minutes, in milliseconds) passes;
the five-minute expiry of the LRU layer itself is strictly looser and the
capacity bound of 1000 entries is not modelled (no run considered here
approaches it). -/
def respCacheGet (k : String) (now : Nat) (st : ChatState) : Option String :=
  match st.responseCache.find? (fun e => decide (e.1 = k) && decide (now - e.2.2 < 120000)) with
  | some e => some e.2.1
  | none => none

def turnKey (tn : Turn) : String := normalizeCacheKey tn.message

/-- The response text a non-cached turn with candidates produces: the
generation outcome, or on a thrown generation error the fallback
template over the truncated candidates. -/
def turnResponse (tn : Turn) : String :=
  match tn.gen with
  | Except.ok r => r
  | Except.error _ => generateFallbackResponse (truncatePropertyData tn.searchProps 1200)

/-- The two messages such a turn appends to the session. -/
def turnMessages (tn : Turn) : List ChatMessage :=
  [{ id := "", role := Role.user, content := tn.message, timestamp := tn.t },
   { id := "", role := Role.assistant, content := turnResponse tn, timestamp := tn.t }]

/-- Model of ChatbotService.handleMessage: serve a fresh identical query
from the response cache (without touching the session); answer with the
fixed message when the search found nothing (without touching the
session); otherwise truncate the candidates to the 1200-token budget,
take the generation outcome or the fallback, cache the response and
append the user and assistant messages to the session. -/
def handleMessageTurn (st : ChatState) (tn : Turn) : String × ChatState :=
  let key := turnKey tn
  match respCacheGet key tn.t st with
  | some response => (response, st)
  | none =>
    if tn.searchProps.isEmpty then (noPropertiesMsg, st)
    else
      let response := turnResponse tn
      (response,
       { responseCache := (key, response, tn.t) :: st.responseCache
         session := st.session ++ turnMessages tn })

/-- A sequence of chat turns against the same session. -/
def runTurns (st : ChatState) : List Turn → ChatState
  | [] => st
  | tn :: rest => runTurns (handleMessageTurn st tn).2 rest

/- ## The choice response (response-generator module)
generateChoiceResponse receives the truncated records of that module;
its truncation there keeps every field it reads, so the embedding works
on the records directly. -/

inductive ResponseType
  | property_list
  | property_detail
  | action_response
  | general
deriving DecidableEq

structure ResponseResult where
  content : String
  rtype : ResponseType
  selectedProperty : Option Property
  propertyCount : Option Nat
deriving DecidableEq

/-- The first maximal digit run of the list, if any; model of the
leftmost match of the bare number regex. -/
def firstNumberGroup : List Char → Option (List Char)
  | [] => none
  | c :: rest =>
    if isDigitChar c then some ((c :: rest).takeWhile isDigitChar)
    else firstNumberGroup rest

/-- Model of ResponseGenerator.getSelectedPropertyIndex: parseInt of the
first number minus one, else the ordinal words, else -1. -/
def getSelectedPropertyIndex (userMessage : String) : Int :=
  let lowerMessage := strToLower userMessage
  match firstNumberGroup lowerMessage.data with
  | some ds => (digitsToNat ds : Int) - 1
  | none =>
    if strIncludes lowerMessage ("option 1") || strIncludes lowerMessage ("first") then 0
    else if strIncludes lowerMessage ("option 2") || strIncludes lowerMessage ("second") then 1
    else if strIncludes lowerMessage ("option 3") || strIncludes lowerMessage ("third") then 2
    else if strIncludes lowerMessage ("option 4") || strIncludes lowerMessage ("fourth") then 3
    else -1

/-- The detailed single-property body the choice branch builds. -/
def choiceDetailContent (property : Property) : String :=
  ("🏠 **") ++ property.property_name ++ ("**\n\n") ++
  ("📍 ") ++ property.address.raw ++ ("\n") ++
  ("🏠 ") ++ intToJs property.unit_details.beds ++ (" bed, ") ++
  ratToJs property.unit_details.baths ++ (" bath, ") ++
  intToJs property.unit_details.square_feet ++ (" sq ft\n") ++
  ("💰 **$") ++ intToJs property.rental_terms.rent ++ ("/month**\n") ++
  ("📅 ") ++ property.unit_details.available ++ ("\n") ++
  (if property.special_offer.flag then
    ("🎁 ") ++ (match property.special_offer.text with
      | some s => s
      | none => ("null")) ++ ("\n")
   else if property.pet_policy.pets_allowed.allowed then ("🐾 Pet friendly\n")
   else if 0 < property.utilities_included.length then ("💡 Utilities included\n")
   else ("")) ++
  ("\n**What would you like to do?**\n") ++
  ("• **Tour** - See it in person\n") ++
  ("• **Apply** - Start your application\n") ++
  ("• **Details** - More information\n") ++
  (if strIncludes (strToLower property.unit_details.available) ("now") then
    ("\n🔥 *Available now - act fast!*")
   else (""))

/-- The numbered re-prompt listing of the else branch. -/
def repromptContent (properties : List Property) : String :=
  ("Which property interests you? Just say the number:\n") ++
  String.intercalate ("\n") (properties.enum.map (fun pr =>
    toString (pr.1 + 1) ++ (". ") ++ pr.2.property_name ++ (" - $") ++
      intToJs pr.2.rental_terms.rent ++ ("/month")))

/-- Model of ResponseGenerator.generateChoiceResponse: the detailed
single-property answer when the parsed reference is in bounds, else the
numbered re-prompt. -/
def generateChoiceResponse (userMessage : String) (properties : List Property) :
    ResponseResult :=
  let selectedIndex := getSelectedPropertyIndex userMessage
  if h : 0 ≤ selectedIndex ∧ selectedIndex.toNat < properties.length then
    let property := properties.get ⟨selectedIndex.toNat, h.2⟩
    { content := choiceDetailContent property
      rtype := ResponseType.property_detail
      selectedProperty := some property
      propertyCount := some properties.length }
  else
    { content := repromptContent properties
      rtype := ResponseType.property_list
      selectedProperty := none
      propertyCount := some properties.length }

/- ## The filter predicate of the specification
Transcribed from the words of the specification for comparison with the
matchesFilters of the code: retain only records for which every present
filter predicate holds — beds/baths equal, rent within min and max,
city substring match (case-insensitive), pets-allowed equal,
square footage within min and max; an absent filter always passes. -/

def specFilterHolds (p : Property) (f : Filters) : Bool :=
  (f.beds.all fun b => decide (p.unit_details.beds = b)) &&
  (f.baths.all fun b => decide (p.unit_details.baths = b)) &&
  (f.rent.all fun r =>
    (r.min.all fun m => decide (m ≤ p.rental_terms.rent)) &&
    (r.max.all fun m => decide (p.rental_terms.rent ≤ m))) &&
  (f.city.all fun c => strIncludes (strToLower p.address.city) (strToLower c)) &&
  (f.pets_allowed.all fun b => decide (p.pet_policy.pets_allowed.allowed = b)) &&
  (f.square_feet.all fun r =>
    (r.min.all fun m => decide (m ≤ p.unit_details.square_feet)) &&
    (r.max.all fun m => decide (p.unit_details.square_feet ≤ m)))

/- ## Concrete records used by witnesses and counterexamples -/

def sampleAddress : Address :=
  { raw := "100 Main St", street_number := "100", street_name := "Main"
    street_type := "St", unit := "", city := "Portland", state := "OR"
    zip_code := "97201" }

def sampleUrls (id : String) : ListingUrls :=
  { listing_id := id, view_details_url := "v", apply_now_url := "a"
    schedule_showing_url := "s", property_website_url := "w" }

def sampleProp (id : String) (beds : Int) : Property :=
  { source := "samp", property_name := "Lincoln Court"
    address := sampleAddress
    listing_urls := sampleUrls id
    unit_details :=
      { beds := beds, baths := mkRat 1 1, square_feet := 500
        available := "Now", floorplan_name := none }
    rental_terms :=
      { rent := 1000, application_fee := 50, security_deposit := 500
        flex_rent_program := false }
    pet_policy :=
      { pets_allowed :=
          { allowed := true, allowed_types := [], weight_limit := none
            size_restrictions := [] }
        pet_rent := none, pet_deposit := none }
    appliances := [], photos := []
    special_offer := { flag := false, text := none }
    utilities_included := [] }

/-- A record whose serialized truncated form exceeds the 1200-token
budget by itself: its name is 4200 characters long. -/
def bigName : String := String.mk (List.replicate 4200 'a')

def bigProp : Property := { sampleProp ("big") 1 with property_name := bigName }

def filterBedsZero : Filters := { emptyFilters with beds := some 0 }

/-- A search oracle whose store is down: every call throws. -/
def oracleDown : SearchQuery → Except String (List Property) :=
  fun _ => Except.error ("store unavailable")

/-- A search oracle that finds one sample candidate. -/
def oracleOne : SearchQuery → Except String (List Property) :=
  fun _ => Except.ok [sampleProp ("w") 1]

def qSimple : SearchQuery :=
  { type := QueryType.semantic, query := "hi", filters := none }

def searchStInit : SearchState := { entries := [], now := 0, searchCalls := 0 }

/-- The chat turn used by the C8 witness. -/
def c8wTurn : Turn :=
  { message := "nothing matches", t := 0
    searchProps := [sampleProp ("w8") 1], gen := Except.error ("gen down") }

/-- The chat turn used by the C8 counterexample: the generation call
fails and the serialized form of the single candidate blows the token
budget. -/
def bigTurn : Turn :=
  { message := "tell me about it", t := 0
    searchProps := [bigProp], gen := Except.error ("gen down") }

/-- The outer-catch message of handleMessage (never produced by the
modelled paths, which recover before it). -/
def handlerErrorMsg : String := "Sorry, I encountered an error. Please try again."

/-- The two identical turns of the C9 counterexample. -/
def c9Turn1 : Turn :=
  { message := "any apartments", t := 0
    searchProps := [sampleProp ("p1") 2], gen := Except.ok ("resp") }

def c9Turn2 : Turn :=
  { message := "any apartments", t := 5
    searchProps := [sampleProp ("p1") 2], gen := Except.ok ("resp") }

/-! # Theorems -/

/- ## C2: matchesFilters against the filter predicate of the specification -/

lemma checkBeds_iff (p : Property) (f : Filters) :
    checkBeds p f = true ↔ ∀ b, f.beds = some b → b ≠ 0 → p.unit_details.beds = b := by
  cases hb : f.beds with
  | none => simp [checkBeds, hb]
  | some b => by_cases h0 : b = 0 <;> simp [checkBeds, hb, h0]

lemma checkBaths_iff (p : Property) (f : Filters) :
    checkBaths p f = true ↔ ∀ b, f.baths = some b → b ≠ 0 → p.unit_details.baths = b := by
  cases hb : f.baths with
  | none => simp [checkBaths, hb]
  | some b => by_cases h0 : b = 0 <;> simp [checkBaths, hb, h0]

lemma checkRent_iff (p : Property) (f : Filters) :
    checkRent p f = true ↔
      (∀ r, f.rent = some r → ∀ m, r.min = some m → m ≠ 0 → m ≤ p.rental_terms.rent) ∧
      (∀ r, f.rent = some r → ∀ m, r.max = some m → m ≠ 0 → p.rental_terms.rent ≤ m) := by
  cases hr : f.rent with
  | none => simp [checkRent, hr]
  | some r =>
    cases hmin : r.min with
    | none =>
      cases hmax : r.max with
      | none => simp [checkRent, hr, hmin, hmax]
      | some mx => by_cases h1 : mx = 0 <;> simp [checkRent, hr, hmin, hmax, h1]
    | some mn =>
      cases hmax : r.max with
      | none => by_cases h0 : mn = 0 <;> simp [checkRent, hr, hmin, hmax, h0]
      | some mx =>
        by_cases h0 : mn = 0 <;> by_cases h1 : mx = 0 <;>
          simp [checkRent, hr, hmin, hmax, h0, h1]

lemma strEmpty_iff (c : String) : c.data.isEmpty = true ↔ c = "" := by
  cases c with
  | mk l => cases l <;> simp [List.isEmpty, String.ext_iff]

lemma checkCity_iff (p : Property) (f : Filters) :
    checkCity p f = true ↔
      ∀ c, f.city = some c → c ≠ "" →
        strIncludes (strToLower p.address.city) (strToLower c) = true := by
  cases hc : f.city with
  | none => simp [checkCity, hc]
  | some c =>
    by_cases h0 : c = ""
    · simp [checkCity, hc, h0]
    · have hne : ¬ c.data.isEmpty = true := by rw [strEmpty_iff]; exact h0
      simp [checkCity, hc, h0, hne]

lemma checkPets_iff (p : Property) (f : Filters) :
    checkPets p f = true ↔
      ∀ b, f.pets_allowed = some b → p.pet_policy.pets_allowed.allowed = b := by
  cases hb : f.pets_allowed with
  | none => simp [checkPets, hb]
  | some b => simp [checkPets, hb]

lemma checkSquareFeet_iff (p : Property) (f : Filters) :
    checkSquareFeet p f = true ↔
      (∀ r, f.square_feet = some r → ∀ m, r.min = some m → m ≠ 0 →
        m ≤ p.unit_details.square_feet) ∧
      (∀ r, f.square_feet = some r → ∀ m, r.max = some m → m ≠ 0 →
        p.unit_details.square_feet ≤ m) := by
  cases hr : f.square_feet with
  | none => simp [checkSquareFeet, hr]
  | some r =>
    cases hmin : r.min with
    | none =>
      cases hmax : r.max with
      | none => simp [checkSquareFeet, hr, hmin, hmax]
      | some mx => by_cases h1 : mx = 0 <;> simp [checkSquareFeet, hr, hmin, hmax, h1]
    | some mn =>
      cases hmax : r.max with
      | none => by_cases h0 : mn = 0 <;> simp [checkSquareFeet, hr, hmin, hmax, h0]
      | some mx =>
        by_cases h0 : mn = 0 <;> by_cases h1 : mx = 0 <;>
          simp [checkSquareFeet, hr, hmin, hmax, h0, h1]

/-- C2 (counterexample): the biconditional of the claim fails as stated.  The
filter set with beds set to 0 is treated as absent by matchesFilters (a
JavaScript falsy test), so a record with one bed passes it even though
the present-filter predicate of the specification (beds equal) fails. -/
theorem C2_counterexample :
    matchesFilters (sampleProp ("p1") 1) (some filterBedsZero) = true ∧
    specFilterHolds (sampleProp ("p1") 1) filterBedsZero = false ∧
    (sampleProp ("p1") 1).unit_details.beds ≠ (0 : Int) := by
  refine ⟨by decide, by decide, by decide⟩

/-- C2 (amended): matchesFilters with an undefined or empty filter set
accepts every record, and with any filter set it accepts a record
exactly when every present filter predicate with a non-zero value (a
non-empty string for city) holds: beds and baths equal, rent within the
min/max bounds, city case-insensitive substring match, pets-allowed
equal, square footage within the min/max bounds.  A zero-valued numeric
filter or empty-string city filter is treated as absent by the falsy
checks of the code. -/
theorem C2_matchesFilters_amended :
    (∀ p, matchesFilters p none = true) ∧
    (∀ p, matchesFilters p (some emptyFilters) = true) ∧
    (∀ p f, matchesFilters p (some f) = true ↔
      ((∀ b, f.beds = some b → b ≠ 0 → p.unit_details.beds = b) ∧
       (∀ b, f.baths = some b → b ≠ 0 → p.unit_details.baths = b) ∧
       ((∀ r, f.rent = some r → ∀ m, r.min = some m → m ≠ 0 → m ≤ p.rental_terms.rent) ∧
        (∀ r, f.rent = some r → ∀ m, r.max = some m → m ≠ 0 → p.rental_terms.rent ≤ m)) ∧
       (∀ c, f.city = some c → c ≠ "" →
         strIncludes (strToLower p.address.city) (strToLower c) = true) ∧
       (∀ b, f.pets_allowed = some b → p.pet_policy.pets_allowed.allowed = b) ∧
       ((∀ r, f.square_feet = some r → ∀ m, r.min = some m → m ≠ 0 →
           m ≤ p.unit_details.square_feet) ∧
        (∀ r, f.square_feet = some r → ∀ m, r.max = some m → m ≠ 0 →
           p.unit_details.square_feet ≤ m)))) := by
  refine ⟨fun p => rfl, fun p => rfl, fun p f => ?_⟩
  simp only [matchesFilters, Bool.and_eq_true]
  rw [checkBeds_iff, checkBaths_iff, checkRent_iff, checkCity_iff, checkPets_iff,
    checkSquareFeet_iff]
  tauto

/- ## C5: generic-listing phrases and the classifiers -/

/-- C5 (counterexample): the message "show me properties" contains a
generic-listing phrase and no filter keyword, yet the five-intent
classifier returns Action (the phrase contains the action keyword
"show me"), not Exact. -/
theorem C5_counterexample :
    generalQueries.any (fun t => strIncludes (strToLower ("show me properties")) t) = true ∧
    exactFilterKeywords.any (fun t => strIncludes (strToLower ("show me properties")) t) = false ∧
    determineQueryTypeP3 ("show me properties") = QueryType.action ∧
    determineQueryTypeP3 ("show me properties") ≠ QueryType.exact := by
  refine ⟨by decide, by decide, by decide, by decide⟩

/-- C5 (amended): every input containing a generic-listing phrase is
classified Exact by the three-intent classifier, unconditionally; the
five-intent classifier classifies such an input Exact exactly when it
contains no action keyword and no choice reference, since those two
checks run before the generic-phrase check. -/
theorem C5_generic_listing_exact (s : String)
    (hg : generalQueries.any (fun t => strIncludes (strToLower s) t) = true) :
    determineQueryType s = QueryType.exact ∧
    (determineQueryTypeP3 s = QueryType.exact ↔
      (actionKeywords.any (fun t => strIncludes (strToLower s) t) = false ∧
       choiceKeywords.any (fun t => strIncludes (strToLower s) t) = false)) := by
  refine ⟨by simp [determineQueryType, hg], ?_⟩
  by_cases ha : actionKeywords.any (fun t => strIncludes (strToLower s) t) = true
  · simp [determineQueryTypeP3, ha]
  · rw [Bool.not_eq_true] at ha
    by_cases hc : choiceKeywords.any (fun t => strIncludes (strToLower s) t) = true
    · simp [determineQueryTypeP3, ha, hc]
    · rw [Bool.not_eq_true] at hc
      simp [determineQueryTypeP3, ha, hc, hg]

/-- C5 (witness): the generic-listing input "show me properties" is
classified Exact by the three-intent classifier, and not Exact by the
five-intent classifier (it contains the action keyword "show me"). -/
theorem C5_witness :
    determineQueryType ("show me properties") = QueryType.exact ∧
    determineQueryTypeP3 ("show me properties") ≠ QueryType.exact := by
  refine ⟨(C5_generic_listing_exact ("show me properties") (by decide)).1, fun he => ?_⟩
  exact absurd
    (((C5_generic_listing_exact ("show me properties") (by decide)).2.mp he).1)
    (by decide)

/- ## C6: the scenario input -/

/-- C6 (counterexample): on the scenario input the five-intent
classifier returns Choice, not Hybrid — the message contains the digit
2, which the choice check matches anywhere in the text. -/
theorem C6_counterexample :
    determineQueryTypeP3 ("2 bedroom apartments under $2000 with pets") = QueryType.choice ∧
    determineQueryTypeP3 ("2 bedroom apartments under $2000 with pets") ≠ QueryType.hybrid := by
  refine ⟨by decide, by decide⟩

/-- C6 (amended): on the scenario input the three-intent classifier of
chatbot.ts returns Hybrid, the five-intent revision returns Choice, and
filter extraction returns exactly beds 2, a max-only rent bound of 2000
and pets-allowed true. -/
theorem C6_scenario :
    determineQueryType ("2 bedroom apartments under $2000 with pets") = QueryType.hybrid ∧
    determineQueryTypeP3 ("2 bedroom apartments under $2000 with pets") = QueryType.choice ∧
    extractFilters ("2 bedroom apartments under $2000 with pets") =
      { beds := some 2, baths := none, rent := some { min := none, max := some 2000 }
        city := none, pets_allowed := some true, square_feet := none } := by
  refine ⟨by decide, by decide, by decide⟩

/- ## C10: the choice response never indexes out of bounds -/

/-- C10: generateChoiceResponse returns the detailed single-property
answer exactly when the parsed numeric or ordinal reference is an index
within the candidate list (in which case the selected property is that
list element, accessed in bounds), and for every other message it
returns the numbered re-prompt listing with no selected property. -/
theorem C10_generateChoiceResponse_safe (userMessage : String) (properties : List Property) :
    ((generateChoiceResponse userMessage properties).rtype = ResponseType.property_detail ↔
      0 ≤ getSelectedPropertyIndex userMessage ∧
        (getSelectedPropertyIndex userMessage).toNat < properties.length) ∧
    (∀ h : 0 ≤ getSelectedPropertyIndex userMessage ∧
        (getSelectedPropertyIndex userMessage).toNat < properties.length,
      (generateChoiceResponse userMessage properties).selectedProperty =
        some (properties.get ⟨(getSelectedPropertyIndex userMessage).toNat, h.2⟩)) ∧
    (¬ (0 ≤ getSelectedPropertyIndex userMessage ∧
        (getSelectedPropertyIndex userMessage).toNat < properties.length) →
      (generateChoiceResponse userMessage properties).rtype = ResponseType.property_list ∧
      (generateChoiceResponse userMessage properties).content = repromptContent properties ∧
      (generateChoiceResponse userMessage properties).selectedProperty = none) := by
  by_cases h : 0 ≤ getSelectedPropertyIndex userMessage ∧
      (getSelectedPropertyIndex userMessage).toNat < properties.length
  · have hval : generateChoiceResponse userMessage properties =
        { content := choiceDetailContent
            (properties.get ⟨(getSelectedPropertyIndex userMessage).toNat, h.2⟩)
          rtype := ResponseType.property_detail
          selectedProperty :=
            some (properties.get ⟨(getSelectedPropertyIndex userMessage).toNat, h.2⟩)
          propertyCount := some properties.length } := by
      simp only [generateChoiceResponse, dif_pos h]
    rw [hval]
    exact ⟨by simp [h], fun h2 => rfl, fun hn => absurd h hn⟩
  · have hval : generateChoiceResponse userMessage properties =
        { content := repromptContent properties
          rtype := ResponseType.property_list
          selectedProperty := none
          propertyCount := some properties.length } := by
      simp only [generateChoiceResponse, dif_neg h]
    rw [hval]
    exact ⟨by simp [h], fun h2 => absurd h2 h, fun _ => ⟨rfl, rfl, rfl⟩⟩

/-- C10 (witness): on the message "2" with two candidates, the second
candidate is selected. -/
theorem C10_witness :
    (0 ≤ getSelectedPropertyIndex ("2") ∧
      (getSelectedPropertyIndex ("2")).toNat <
        ([sampleProp ("w1") 1, sampleProp ("w2") 2] : List Property).length) ∧
    (generateChoiceResponse ("2") [sampleProp ("w1") 1, sampleProp ("w2") 2]).selectedProperty =
      some (sampleProp ("w2") 2) := by
  refine ⟨by decide, ?_⟩
  rw [(C10_generateChoiceResponse_safe ("2")
    [sampleProp ("w1") 1, sampleProp ("w2") 2]).2.1 (by decide)]
  decide

/- ## C3: hybrid search supplementation -/

/-- C3: with at least three exact candidates the hybrid search returns
them unchanged; with fewer it returns the exact candidates first,
followed by semantic candidates whose listing id is not already present,
under the overall cap of 10, and (when each input list carries distinct
listing ids) without duplicate listing ids in the merge. -/
theorem C3_hybridSearch_supplement (ex sem : List Property) :
    (3 ≤ ex.length → hybridSearch ex sem = ex) ∧
    (ex.length < 3 →
      (∃ extra, hybridSearch ex sem = ex ++ extra ∧
          ∀ p ∈ extra, p.listing_urls.listing_id ∉ listingIdsOf ex) ∧
      (hybridSearch ex sem).length ≤ 10 ∧
      ((listingIdsOf ex).Nodup → (listingIdsOf sem).Nodup →
        (listingIdsOf (hybridSearch ex sem)).Nodup)) := by
  constructor
  · intro h
    simp [hybridSearch, h]
  · intro h
    have hlt : ¬ 3 ≤ ex.length := by omega
    have heq : hybridSearch ex sem =
        ex ++ (sem.filter
          (fun p => !(decide (p.listing_urls.listing_id ∈ listingIdsOf ex)))).take
            (5 - ex.length) := by
      simp [hybridSearch, hlt]
    have hmem : ∀ p ∈ (sem.filter
        (fun p => !(decide (p.listing_urls.listing_id ∈ listingIdsOf ex)))).take
          (5 - ex.length), p.listing_urls.listing_id ∉ listingIdsOf ex := by
      intro p hp
      have hp2 := List.take_subset _ _ hp
      have hp3 := List.of_mem_filter hp2
      simpa using hp3
    refine ⟨⟨_, heq, hmem⟩, ?_, ?_⟩
    · rw [heq, List.length_append]
      have h5 := List.length_take_le (5 - ex.length)
        (sem.filter (fun p => !(decide (p.listing_urls.listing_id ∈ listingIdsOf ex))))
      omega
    · intro hex hsem
      rw [heq]
      unfold listingIdsOf
      rw [List.map_append, List.nodup_append]
      refine ⟨hex, ?_, ?_⟩
      · have hsub : List.Sublist ((sem.filter
            (fun p => !(decide (p.listing_urls.listing_id ∈ listingIdsOf ex)))).take
              (5 - ex.length)) sem :=
          (List.take_sublist _ _).trans (List.filter_sublist sem)
        exact hsem.sublist (hsub.map _)
      · rw [List.disjoint_right]
        intro a ha
        obtain ⟨p, hp, rfl⟩ := List.mem_map.mp ha
        exact hmem p hp

/-- C3 (witness): with three exact candidates the hybrid search returns
them unchanged. -/
theorem C3_witness :
    3 ≤ ([sampleProp ("a") 1, sampleProp ("b") 2, sampleProp ("c") 3] : List Property).length ∧
    hybridSearch [sampleProp ("a") 1, sampleProp ("b") 2, sampleProp ("c") 3]
        [sampleProp ("d") 1] =
      [sampleProp ("a") 1, sampleProp ("b") 2, sampleProp ("c") 3] :=
  ⟨by decide, (C3_hybridSearch_supplement _ _).1 (by decide)⟩

/- ## C4: cosine similarity -/

lemma dotProd_self (v : List ℝ) : dotProd v v = sumSq v := by
  induction v with
  | nil => rfl
  | cons x xs ih => simp [dotProd, sumSq, ih]

lemma sumSq_nonneg (v : List ℝ) : 0 ≤ sumSq v := by
  induction v with
  | nil => simp [sumSq]
  | cons x xs ih =>
    simp only [sumSq]
    nlinarith [mul_self_nonneg x]

lemma sumSq_pos (v : List ℝ) (h : ∃ x ∈ v, x ≠ 0) : 0 < sumSq v := by
  induction v with
  | nil => simp at h
  | cons y ys ih =>
    obtain ⟨x, hx, hxne⟩ := h
    rcases List.mem_cons.mp hx with rfl | hmem
    · have hpos : 0 < x * x := mul_self_pos.mpr hxne
      have := sumSq_nonneg ys
      simp only [sumSq]
      nlinarith
    · have := ih ⟨x, hmem, hxne⟩
      have hy := mul_self_nonneg y
      simp only [sumSq]
      nlinarith

lemma sumSq_map_neg (v : List ℝ) : sumSq (v.map fun x => -x) = sumSq v := by
  induction v with
  | nil => rfl
  | cons x xs ih => simp [sumSq, ih]

lemma dotProd_map_neg (v : List ℝ) : dotProd v (v.map fun x => -x) = -sumSq v := by
  induction v with
  | nil => simp [dotProd, sumSq]
  | cons x xs ih =>
    simp only [List.map_cons, dotProd, sumSq, ih]
    ring

/-- C4: cosineSimilarity equals the normalized dot product whenever the
dimensions agree and the denominator is non-zero; it is 0 on mismatched
dimensions and 0 when either norm is zero (and, being a total function,
never raises); and on any vector with a non-zero entry it is exactly 1
against itself and exactly -1 against its negation. -/
theorem C4_cosineSimilarity_spec :
    (∀ a b : List ℝ, a.length = b.length →
      Real.sqrt (sumSq a) * Real.sqrt (sumSq b) ≠ 0 →
      cosineSimilarity a b = dotProd a b / (Real.sqrt (sumSq a) * Real.sqrt (sumSq b))) ∧
    (∀ a b : List ℝ, a.length ≠ b.length → cosineSimilarity a b = 0) ∧
    (∀ a b : List ℝ, sumSq a = 0 ∨ sumSq b = 0 → cosineSimilarity a b = 0) ∧
    (∀ v : List ℝ, (∃ x ∈ v, x ≠ 0) →
      cosineSimilarity v v = 1 ∧ cosineSimilarity v (v.map fun x => -x) = -1) := by
  refine ⟨?_, ?_, ?_, ?_⟩
  · intro a b hlen hden
    simp [cosineSimilarity, hlen, hden]
  · intro a b hlen
    simp [cosineSimilarity, hlen]
  · intro a b h
    by_cases hlen : a.length = b.length
    · have hden : Real.sqrt (sumSq a) * Real.sqrt (sumSq b) = 0 := by
        rcases h with h | h <;> simp [h]
      simp [cosineSimilarity, hlen, hden]
    · simp [cosineSimilarity, hlen]
  · intro v hv
    have hpos := sumSq_pos v hv
    have hne : sumSq v ≠ 0 := ne_of_gt hpos
    have hsqrt : Real.sqrt (sumSq v) * Real.sqrt (sumSq v) = sumSq v :=
      Real.mul_self_sqrt (le_of_lt hpos)
    have hden : Real.sqrt (sumSq v) * Real.sqrt (sumSq v) ≠ 0 := by
      rw [hsqrt]; exact hne
    constructor
    · have h1 : cosineSimilarity v v =
          dotProd v v / (Real.sqrt (sumSq v) * Real.sqrt (sumSq v)) := by
        simp [cosineSimilarity, hden]
      rw [h1, dotProd_self, hsqrt, div_self hne]
    · have hlen : v.length = (v.map fun x => -x).length := by simp
      have h2 : cosineSimilarity v (v.map fun x => -x) =
          dotProd v (v.map fun x => -x) /
            (Real.sqrt (sumSq v) * Real.sqrt (sumSq (v.map fun x => -x))) := by
        simp [cosineSimilarity, sumSq_map_neg, hden]
      rw [h2, dotProd_map_neg, sumSq_map_neg, hsqrt, neg_div, div_self hne]

/-- C4 (witness): the one-dimensional vector with entry 1 has similarity
1 with itself. -/
theorem C4_witness :
    (∃ x ∈ [(1 : ℝ)], x ≠ 0) ∧ cosineSimilarity [(1 : ℝ)] [(1 : ℝ)] = 1 := by
  have h : ∃ x ∈ [(1 : ℝ)], x ≠ 0 := ⟨1, by simp, one_ne_zero⟩
  exact ⟨h, (C4_cosineSimilarity_spec.2.2.2 [(1 : ℝ)] h).1⟩

/- ## C7: search failure degrades to an empty result -/

/-- C7: when the store connection is unavailable, and likewise when the
cache misses and the dispatched search path throws, searchProperties
returns the empty candidate list with the cache-hit flag false instead
of propagating the failure (the model is a total function: every
outcome is a returned SearchResult). -/
theorem C7_searchProperties_failure
    (doExact doHybrid : SearchQuery → Except String (List Property))
    (q : SearchQuery) (st : SearchState) (e : String) :
    ((searchProperties false doExact doHybrid q st).1.properties = [] ∧
     (searchProperties false doExact doHybrid q st).1.cacheHit = false) ∧
    (cacheGet (getCacheKey q) st = none →
      searchDispatch doExact doHybrid q = Except.error e →
      (searchProperties true doExact doHybrid q st).1.properties = [] ∧
      (searchProperties true doExact doHybrid q st).1.cacheHit = false) := by
  constructor
  · exact ⟨rfl, rfl⟩
  · intro hmiss herr
    simp [searchProperties, hmiss, herr]

/-- C7 (witness): a concrete failing search returns the empty result. -/
theorem C7_witness :
    (searchProperties true oracleDown oracleDown qSimple searchStInit).1.properties = [] ∧
    (searchProperties true oracleDown oracleDown qSimple searchStInit).1.cacheHit = false :=
  (C7_searchProperties_failure oracleDown oracleDown qSimple searchStInit
    ("store unavailable")).2 rfl rfl

/- ## C1: at most one computation per fingerprint within the TTL -/

/-- C1: starting from a state with no live entry for the fingerprint
of the query, a successful search writes its payload; a second query
with the same normalized text and filters issued δ < 300 seconds later
returns the identical payload with the cache-hit flag set and leaves
the search-call counter untouched (its own search oracles, which may be
arbitrary, are never invoked), so exactly one computation happens for
the fingerprint inside the TTL window. -/
theorem C1_search_cache_idempotent
    (dE dH dE2 dH2 : SearchQuery → Except String (List Property))
    (q1 q2 : SearchQuery) (st0 : SearchState) (props : List Property) (δ : Nat)
    (hkey : getCacheKey q1 = getCacheKey q2)
    (hmiss : cacheGet (getCacheKey q1) st0 = none)
    (hrun : searchDispatch dE dH q1 = Except.ok props)
    (hδ : δ < 300) :
    (searchProperties true dE dH q1 st0).1.properties = props ∧
    (searchProperties true dE dH q1 st0).1.cacheHit = false ∧
    (searchProperties true dE dH q1 st0).2.searchCalls = st0.searchCalls + 1 ∧
    (searchProperties true dE2 dH2 q2
      { (searchProperties true dE dH q1 st0).2 with
        now := (searchProperties true dE dH q1 st0).2.now + δ }).1.properties = props ∧
    (searchProperties true dE2 dH2 q2
      { (searchProperties true dE dH q1 st0).2 with
        now := (searchProperties true dE dH q1 st0).2.now + δ }).1.cacheHit = true ∧
    (searchProperties true dE2 dH2 q2
      { (searchProperties true dE dH q1 st0).2 with
        now := (searchProperties true dE dH q1 st0).2.now + δ }).2.searchCalls =
      st0.searchCalls + 1 := by
  have h1 : searchProperties true dE dH q1 st0 =
      ({ properties := props, query := q1, latency := 0, cacheHit := false },
       { entries := (getCacheKey q1, props, st0.now) :: st0.entries
         now := st0.now, searchCalls := st0.searchCalls + 1 }) := by
    simp [searchProperties, hmiss, hrun]
  have hhit : cacheGet (getCacheKey q2)
      { entries := (getCacheKey q1, props, st0.now) :: st0.entries
        now := st0.now + δ, searchCalls := st0.searchCalls + 1 } = some props := by
    rw [← hkey]
    unfold cacheGet
    rw [List.find?_cons_of_pos]
    simp
    omega
  rw [h1]
  refine ⟨rfl, rfl, rfl, ?_, ?_, ?_⟩ <;>
    simp [searchProperties, hhit]

/-- C1 (witness): a concrete repeat of the same query 10 seconds later
is served from the cache with no second search-path call. -/
theorem C1_witness :
    (searchProperties true oracleOne oracleOne qSimple searchStInit).1.properties =
      [sampleProp ("w") 1] ∧
    (searchProperties true oracleOne oracleOne qSimple searchStInit).1.cacheHit = false ∧
    (searchProperties true oracleOne oracleOne qSimple searchStInit).2.searchCalls =
      searchStInit.searchCalls + 1 ∧
    (searchProperties true oracleDown oracleDown qSimple
      { (searchProperties true oracleOne oracleOne qSimple searchStInit).2 with
        now := (searchProperties true oracleOne oracleOne qSimple searchStInit).2.now +
          10 }).1.properties = [sampleProp ("w") 1] ∧
    (searchProperties true oracleDown oracleDown qSimple
      { (searchProperties true oracleOne oracleOne qSimple searchStInit).2 with
        now := (searchProperties true oracleOne oracleOne qSimple searchStInit).2.now +
          10 }).1.cacheHit = true ∧
    (searchProperties true oracleDown oracleDown qSimple
      { (searchProperties true oracleOne oracleOne qSimple searchStInit).2 with
        now := (searchProperties true oracleOne oracleOne qSimple searchStInit).2.now +
          10 }).2.searchCalls = searchStInit.searchCalls + 1 :=
  C1_search_cache_idempotent oracleOne oracleOne oracleDown oracleDown qSimple qSimple
    searchStInit [sampleProp ("w") 1] 10 rfl rfl rfl (by decide)

/- ## C9: the session message list -/

lemma respCacheGet_eq_none {k : String} {now : Nat} {st : ChatState}
    (h : k ∉ st.responseCache.map (fun e => e.1)) : respCacheGet k now st = none := by
  have hfind : st.responseCache.find?
      (fun e => decide (e.1 = k) && decide (now - e.2.2 < 120000)) = none := by
    rw [List.find?_eq_none]
    intro e he
    have hne : e.1 ≠ k := fun hk => h (List.mem_map.mpr ⟨e, he, hk⟩)
    simp [hne]
  simp [respCacheGet, hfind]

lemma handleMessageTurn_of_fresh (st : ChatState) (tn : Turn)
    (hk : turnKey tn ∉ st.responseCache.map (fun e => e.1))
    (hp : tn.searchProps.isEmpty = false) :
    handleMessageTurn st tn =
      (turnResponse tn,
       { responseCache := (turnKey tn, turnResponse tn, tn.t) :: st.responseCache
         session := st.session ++ turnMessages tn }) := by
  simp [handleMessageTurn, respCacheGet_eq_none hk, hp]

lemma flatMap_turnMessages_length (ts : List Turn) :
    (ts.flatMap turnMessages).length = 2 * ts.length := by
  induction ts with
  | nil => rfl
  | cons tn rest ih =>
    rw [List.flatMap_cons, List.length_append, ih]
    simp [turnMessages]
    omega

lemma flatMap_turnMessages_roles (ts : List Turn) :
    (ts.flatMap turnMessages).map ChatMessage.role =
      ts.flatMap (fun _ => [Role.user, Role.assistant]) := by
  induction ts with
  | nil => rfl
  | cons tn rest ih =>
    rw [List.flatMap_cons, List.flatMap_cons, List.map_append, ih]
    rfl

lemma flatMap_turnMessages_timestamps (ts : List Turn) :
    (ts.flatMap turnMessages).map ChatMessage.timestamp =
      ts.flatMap (fun tn => [tn.t, tn.t]) := by
  induction ts with
  | nil => rfl
  | cons tn rest ih =>
    rw [List.flatMap_cons, List.flatMap_cons, List.map_append, ih]
    rfl

lemma pairwise_dup_times (ts : List Turn)
    (h : (ts.map Turn.t).Pairwise (· ≤ ·)) :
    (ts.flatMap (fun tn => [tn.t, tn.t])).Pairwise (· ≤ ·) := by
  induction ts with
  | nil => simp
  | cons tn rest ih =>
    rw [List.map_cons, List.pairwise_cons] at h
    rw [List.flatMap_cons, List.pairwise_append]
    refine ⟨by simp, ih h.2, ?_⟩
    intro a ha b hb
    obtain ⟨tn2, htn2, hb2⟩ := List.mem_flatMap.mp hb
    have hle : tn.t ≤ tn2.t := h.1 tn2.t (List.mem_map.mpr ⟨tn2, htn2, rfl⟩)
    have ha2 : a = tn.t := by simpa using ha
    have hb3 : b = tn2.t := by simpa using hb2
    rw [ha2, hb3]
    exact hle

lemma runTurns_fresh (ts : List Turn) : ∀ st0 : ChatState,
    (ts.map turnKey).Nodup →
    (∀ tn ∈ ts, tn.searchProps.isEmpty = false) →
    (∀ tn ∈ ts, turnKey tn ∉ st0.responseCache.map (fun e => e.1)) →
    (runTurns st0 ts).session = st0.session ++ ts.flatMap turnMessages := by
  induction ts with
  | nil => intro st0 _ _ _; simp [runTurns]
  | cons tn rest ih =>
    intro st0 hnodup hprops hfresh
    have hk : turnKey tn ∉ st0.responseCache.map (fun e => e.1) := hfresh tn (by simp)
    have hp : tn.searchProps.isEmpty = false := hprops tn (by simp)
    rw [List.map_cons, List.nodup_cons] at hnodup
    have step := handleMessageTurn_of_fresh st0 tn hk hp
    show (runTurns (handleMessageTurn st0 tn).2 rest).session = _
    rw [step]
    rw [ih _ hnodup.2 (fun t ht => hprops t (by simp [ht]))
      (fun t ht => ?_)]
    · rw [List.flatMap_cons, List.append_assoc]
    · simp only [List.map_cons, List.mem_cons]
      rintro (hkey | hmem)
      · exact hnodup.1 (by rw [← hkey] at *; exact List.mem_map.mpr ⟨t, ht, rfl⟩)
      · exact hfresh t (by simp [ht]) hmem

/-- C9 (counterexample): two completed turns with the same message leave
the session with 2 messages, not 2 times 2 — the second turn is served
from the response cache and appends nothing. -/
theorem C9_counterexample :
    (runTurns chatInit [c9Turn1, c9Turn2]).session.length = 2 ∧
    (runTurns chatInit [c9Turn1, c9Turn2]).session.length ≠ 2 * 2 := by
  refine ⟨by decide, by decide⟩

/-- C9 (amended): every turn only appends to the session; a turn served
from the response cache, or finding no candidates, appends nothing, and
any other turn appends exactly its user message followed by its
assistant message.  Over any run of turns with pairwise distinct cache
keys, all hitting candidates and fresh against the initial cache, the
session ends with exactly 2N messages in user/assistant alternation,
and non-decreasing turn clocks give non-decreasing message
timestamps. -/
theorem C9_session_append_only :
    (∀ st tn, ∃ extra, (handleMessageTurn st tn).2.session = st.session ++ extra ∧
      (extra = [] ∨ extra = turnMessages tn)) ∧
    (∀ ts st0, (ts.map turnKey).Nodup →
      (∀ tn ∈ ts, tn.searchProps.isEmpty = false) →
      (∀ tn ∈ ts, turnKey tn ∉ st0.responseCache.map (fun e => e.1)) →
      (runTurns st0 ts).session = st0.session ++ ts.flatMap turnMessages) ∧
    (∀ ts, (ts.map turnKey).Nodup →
      (∀ tn ∈ ts, tn.searchProps.isEmpty = false) →
      (ts.map Turn.t).Pairwise (· ≤ ·) →
      (runTurns chatInit ts).session.length = 2 * ts.length ∧
      (runTurns chatInit ts).session.map ChatMessage.role =
        ts.flatMap (fun _ => [Role.user, Role.assistant]) ∧
      ((runTurns chatInit ts).session.map ChatMessage.timestamp).Pairwise (· ≤ ·)) := by
  refine ⟨?_, ?_, ?_⟩
  · intro st tn
    unfold handleMessageTurn
    cases hc : respCacheGet (turnKey tn) tn.t st with
    | some r => exact ⟨[], by simp [hc], Or.inl rfl⟩
    | none =>
      cases hp : tn.searchProps.isEmpty with
      | true => exact ⟨[], by simp [hc, hp], Or.inl rfl⟩
      | false => exact ⟨turnMessages tn, by simp [hc, hp], Or.inr rfl⟩
  · intro ts st0 hnodup hprops hfresh
    exact runTurns_fresh ts st0 hnodup hprops hfresh
  · intro ts hnodup hprops htimes
    have hrun := runTurns_fresh ts chatInit hnodup hprops (by simp [chatInit])
    refine ⟨?_, ?_, ?_⟩
    · rw [hrun]
      show (([] : List ChatMessage) ++ ts.flatMap turnMessages).length = 2 * ts.length
      rw [List.nil_append]
      exact flatMap_turnMessages_length ts
    · rw [hrun]
      show (([] : List ChatMessage) ++ ts.flatMap turnMessages).map ChatMessage.role =
        ts.flatMap (fun _ => [Role.user, Role.assistant])
      rw [List.nil_append]
      exact flatMap_turnMessages_roles ts
    · rw [hrun]
      show ((([] : List ChatMessage) ++
        ts.flatMap turnMessages).map ChatMessage.timestamp).Pairwise (· ≤ ·)
      rw [List.nil_append, flatMap_turnMessages_timestamps]
      exact pairwise_dup_times ts htimes

/-- C9 (witness): one fresh turn with a candidate appends exactly two
messages. -/
theorem C9_witness :
    (runTurns chatInit [c9Turn1]).session.length = 2 * ([c9Turn1] : List Turn).length :=
  ((C9_session_append_only.2.2 [c9Turn1] (by decide) (by decide) (by decide)).1)

/- ## C8: generation failure and the fallback template -/

lemma ne_of_data_take {s t : String} (n : Nat)
    (h : s.data.take n ≠ t.data.take n) : s ≠ t :=
  fun he => h (by rw [he])

lemma strMk_length (l : List Char) : (String.mk l).length = l.length := rfl

lemma head?_take_of_ne_nil {α : Type} {l : List α} {n : Nat} (h : l.take n ≠ []) :
    (l.take n).head? = l.head? := by
  cases l with
  | nil => simp at h
  | cons a t =>
    cases n with
    | zero => simp at h
    | succ m => rfl

lemma truncatePropertyData_head (props : List Property) (maxTokens : Nat)
    (h : truncatePropertyData props maxTokens ≠ []) :
    (truncatePropertyData props maxTokens).head? = props.head?.map truncOne := by
  simp only [truncatePropertyData] at h ⊢
  by_cases hb : maxTokens < estimateTokens (jsonList (props.map truncOne))
  · rw [if_pos hb] at h ⊢
    rw [head?_take_of_ne_nil h, List.head?_map]
  · rw [if_neg hb]
    rw [List.head?_map]

lemma generateFallbackResponse_cons (t0 : TruncatedProperty)
    (rest : List TruncatedProperty) :
    ∃ s : String, generateFallbackResponse (t0 :: rest) = ("I found ") ++ s :=
  ⟨_, rfl⟩

lemma take_append_of_le_data {s t : String} {n : Nat} (h : n ≤ s.data.length) :
    (s ++ t).data.take n = s.data.take n := by
  rw [String.data_append, List.take_append_of_le_length h]

lemma escChar_replicate (n : Nat) :
    (List.replicate n 'a').flatMap escChar = List.replicate n 'a' := by
  induction n with
  | zero => rfl
  | succ k ih => rw [List.replicate_succ, List.flatMap_cons, ih]; rfl

lemma jsonStr_bigName_length : (jsonStr bigName).length = 4202 := by
  have h1 : bigName.data = List.replicate 4200 'a' := rfl
  show ('"' :: (bigName.data.flatMap escChar ++ ['"'])).length = 4202
  rw [h1, escChar_replicate, List.length_cons, List.length_append, List.length_replicate]
  rfl

lemma jsonOfTrunc_bigProp_length : 4202 ≤ (jsonOfTrunc (truncOne bigProp)).length := by
  have hn : (truncOne bigProp).property_name = bigName := rfl
  simp only [jsonOfTrunc, String.length_append, hn, jsonStr_bigName_length]
  omega

lemma trunc_bigProp_empty : truncatePropertyData [bigProp] 1200 = [] := by
  have hdl : (jsonOfTrunc (truncOne bigProp)).data.length =
      (jsonOfTrunc (truncOne bigProp)).length := rfl
  have h2 : (jsonList ([bigProp].map truncOne)).length =
      (jsonOfTrunc (truncOne bigProp)).data.length + 2 := by
    show ('[' :: ((jsonOfTrunc (truncOne bigProp)).data ++ [']'])).length = _
    rw [List.length_cons, List.length_append]
    have h1 : ([']'] : List Char).length = 1 := rfl
    omega
  have hlen : 4201 ≤ (jsonList ([bigProp].map truncOne)).length := by
    have := jsonOfTrunc_bigProp_length
    omega
  have hest : 1201 ≤ estimateTokens (jsonList ([bigProp].map truncOne)) := by
    unfold estimateTokens
    rw [Nat.le_div_iff_mul_le (by norm_num)]
    omega
  have hb : 1200 < estimateTokens (jsonList ([bigProp].map truncOne)) := by omega
  simp only [truncatePropertyData]
  rw [if_pos hb]
  have hz : 1200 * ([bigProp] : List Property).length /
      estimateTokens (jsonList ([bigProp].map truncOne)) = 0 := by
    apply Nat.div_eq_of_lt
    simpa using hb
  rw [hz]
  rfl

/-- C8 (counterexample): a request with one (pathologically large)
candidate whose generation call fails does not answer with the fallback
template built from that candidate: the token-budget truncation drops
every candidate and the fixed no-properties message is returned
instead. -/
theorem C8_counterexample :
    (handleMessageTurn chatInit bigTurn).1 = noPropertiesMsg ∧
    (handleMessageTurn chatInit bigTurn).1 ≠ generateFallbackResponse [truncOne bigProp] := by
  have hmiss : respCacheGet (turnKey bigTurn) bigTurn.t chatInit = none := rfl
  have hp : bigTurn.searchProps.isEmpty = false := rfl
  have hgen : bigTurn.gen = Except.error ("gen down") := rfl
  have hsp : bigTurn.searchProps = [bigProp] := rfl
  have hrun : (handleMessageTurn chatInit bigTurn).1 = noPropertiesMsg := by
    simp only [handleMessageTurn, hmiss, hp, turnResponse, hgen, hsp,
      trunc_bigProp_empty, generateFallbackResponse, Bool.false_eq_true, if_false]
    rfl
  refine ⟨hrun, ?_⟩
  rw [hrun]
  obtain ⟨tail1, htail⟩ := generateFallbackResponse_cons (truncOne bigProp) []
  rw [htail]
  apply ne_of_data_take 3
  rw [take_append_of_le_data (by decide)]
  decide

/-- C8 (amended): when a fresh request with candidates reaches the
generation step, every generation attempt fails, and the token-budget
truncation keeps at least one candidate, the final response is exactly
the deterministic fallback template built from the top (truncated)
candidate fields — the head of the truncated list is the truncation
of the top search candidate — and it is neither the handler error
message nor the no-properties message. -/
theorem C8_generation_fallback (st : ChatState) (tn : Turn) (err : String)
    (hmiss : respCacheGet (turnKey tn) tn.t st = none)
    (hprops : tn.searchProps.isEmpty = false)
    (hgen : tn.gen = Except.error err)
    (htrunc : truncatePropertyData tn.searchProps 1200 ≠ []) :
    (handleMessageTurn st tn).1 =
      generateFallbackResponse (truncatePropertyData tn.searchProps 1200) ∧
    (truncatePropertyData tn.searchProps 1200).head? =
      tn.searchProps.head?.map truncOne ∧
    (handleMessageTurn st tn).1 ≠ handlerErrorMsg ∧
    (handleMessageTurn st tn).1 ≠ noPropertiesMsg := by
  have hresp : (handleMessageTurn st tn).1 =
      generateFallbackResponse (truncatePropertyData tn.searchProps 1200) := by
    simp [handleMessageTurn, hmiss, hprops, turnResponse, hgen]
  obtain ⟨t0, rest, hts⟩ := List.exists_cons_of_ne_nil htrunc
  obtain ⟨tail1, htail⟩ := generateFallbackResponse_cons t0 rest
  refine ⟨hresp, truncatePropertyData_head tn.searchProps 1200 htrunc, ?_, ?_⟩
  · rw [hresp, hts, htail]
    apply ne_of_data_take 1
    rw [take_append_of_le_data (by decide)]
    decide
  · rw [hresp, hts, htail]
    apply ne_of_data_take 3
    rw [take_append_of_le_data (by decide)]
    decide

set_option maxRecDepth 8192 in
/-- C8 (witness): a concrete failing-generation turn answers with the
fallback template of its candidate. -/
theorem C8_witness :
    (handleMessageTurn chatInit c8wTurn).1 =
      generateFallbackResponse (truncatePropertyData c8wTurn.searchProps 1200) :=
  (C8_generation_fallback chatInit c8wTurn ("gen down") rfl rfl rfl (by decide)).1

end Berez
